import Mathlib

/-!
Shallow embedding of the p3 syscall-interception system.

Server side (src/rpc_server.c): the client-to-server file-descriptor
translation table (fd_mapping, next_client_fd) with its operations
add_fd_mapping, add_fd_mapping_from, remove_fd_mapping, translate_fd, and the
twelve request handlers syscall_*_1_svc.  Kernel syscalls executed by a handler
are not modelled operationally; each handler takes the kernel outcome (return
value, errno observed right after the call, bytes delivered, updated flock) as
an explicit oracle argument and additionally reports the list of kernel calls
it issued, so that claims about "no kernel call on an unmapped descriptor" and
"the orphaned server descriptor is closed" can be stated.

Client side (src/intercept/intercept_*.h, src/rpc_client.c): the per-symbol
bypass conditions (the guard test at the top of every interposed function),
and full models of the stat, read, pread and newfstatat interposers, which the
claims examine in detail.  The buffer handed to read/pread is a list of byte
values; a kernel read overwrites its front and leaves the rest untouched.

MAX_BUFFER_SIZE is defined in the generated protocol header, which is not part
of the sources; the read/pread handlers take it as a parameter (its value is
irrelevant to every claim below).
-/

namespace P3

/-! Error numbers as used on the platform (errno.h). -/

def ENOENT : Int := 2

def EIO : Int := 5

def EBADF : Int := 9

def ENFILE : Int := 23

/-! fcntl command numbers (fcntl.h). -/

def F_DUPFD : Int := 0

def F_GETFD : Int := 1

def F_GETLK : Int := 5

def F_DUPFD_CLOEXEC : Int := 1030

/-- MAX_FDS from rpc_server.c: capacity of the descriptor table. -/
def MAX_FDS : Nat := 1024

/-- Outcome of one kernel syscall as the server observes it: the return value
and the value of errno immediately after the call returned.  A successful call
leaves errno at whatever value it had before (the kernel only sets it on
failure), so errnoAfter is meaningful but not necessarily zero on success. -/
structure SyscallOutcome where
  ret : Int
  errnoAfter : Int
deriving DecidableEq

/-- Outcome of one kernel read/pread: either the bytes actually delivered
(with the errno value left after the call), or a failure with its errno. -/
inductive ReadOutcome where
  | ok (bytes : List Int) (errnoAfter : Int)
  | fail (errnoAfter : Int)
deriving DecidableEq

/-- Errno observed right after a kernel read/pread finished. -/
def ReadOutcome.errnoVal : ReadOutcome → Int
  | .ok _ e => e
  | .fail e => e

/-- open_response / openat_response: fd, result, err. -/
structure OpenResponse where
  fd : Int
  result : Int
  err : Int
deriving DecidableEq

/-- close_response, write_response, pwrite_response and fdatasync_response all
carry exactly the two fields result and err. -/
structure PlainResponse where
  result : Int
  err : Int
deriving DecidableEq

/-- read_response / pread_response: result, err, and the byte payload
(data_val with data_len = length). -/
structure ReadResponse where
  result : Int
  err : Int
  data : List Int
deriving DecidableEq

/-- The thirteen scalar fields common to stat_response, fstat_response and
newfstatat_response. -/
structure StatFields where
  dev : Int
  ino : Int
  mode : Int
  nlink : Int
  uid : Int
  gid : Int
  rdev : Int
  size : Int
  blksize : Int
  blocks : Int
  atime : Int
  mtime : Int
  ctime : Int
deriving DecidableEq

/-- All-zero stat fields, as written by the failure branches of the stat-family
handlers. -/
def statFieldsZero : StatFields :=
  ⟨0, 0, 0, 0, 0, 0, 0, 0, 0, 0, 0, 0, 0⟩

/-- stat_response / fstat_response / newfstatat_response: result, err, and the
thirteen stat scalars. -/
structure StatResponse where
  result : Int
  err : Int
  fields : StatFields
deriving DecidableEq

/-- flock_data carried by the FLOCK case of the fcntl argument union. -/
structure FlockData where
  l_type : Int
  l_whence : Int
  l_start : Int
  l_len : Int
  l_pid : Int
deriving DecidableEq

/-- The fcntl argument tagged union: NONE, INT, FLOCK. -/
inductive FcntlArg where
  | none
  | int (n : Int)
  | flock (f : FlockData)
deriving DecidableEq

/-- Whether a fcntl argument is the FLOCK case. -/
def FcntlArg.isFlock : FcntlArg → Bool
  | .flock _ => true
  | _ => false

/-- fcntl_response: result, err, and the returned argument union (arg_out). -/
structure FcntlResponse where
  result : Int
  err : Int
  arg_out : FcntlArg
deriving DecidableEq

/-- A kernel syscall issued by the server, with the arguments it passed
(in particular the descriptor argument after translation). -/
inductive KernelCall where
  | openK (path : String) (flags mode : Int)
  | openatK (dirfd : Int) (path : String) (flags mode : Int)
  | closeK (fd : Int)
  | readK (fd : Int) (count : Nat)
  | preadK (fd : Int) (count : Nat) (offset : Int)
  | writeK (fd : Int) (data : List Int)
  | pwriteK (fd : Int) (data : List Int) (offset : Int)
  | statK (path : String)
  | fstatK (fd : Int)
  | fcntlK (fd cmd : Int) (arg : FcntlArg)
  | fdatasyncK (fd : Int)
deriving DecidableEq

/-- Server descriptor-table state: the fd_mapping array (client descriptor to
server descriptor, -1 meaning free) and the allocation cursor next_client_fd.
Only indices below MAX_FDS are ever read or written. -/
structure FdState where
  mapping : Nat → Int
  nextClientFd : Nat

/-- init_fd_mapping plus the initializer of next_client_fd: every slot free,
cursor at 3 (start after stdin/stdout/stderr). -/
def initState : FdState :=
  ⟨fun _ => -1, 3⟩

/-- add_fd_mapping: if the cursor reached MAX_FDS the table is full and the
call fails with -1; otherwise assign the cursor slot and post-increment. -/
def add_fd_mapping (s : FdState) (server_fd : Int) : Int × FdState :=
  if s.nextClientFd ≥ MAX_FDS then
    (-1, s)
  else
    ((s.nextClientFd : Int),
      { mapping := fun i => if i = s.nextClientFd then server_fd else s.mapping i,
        nextClientFd := s.nextClientFd + 1 })

/-- The linear search loop of add_fd_mapping_from, phrased with the number of
remaining slots as fuel: starting at index i, while fewer than fuel steps have
been taken, return the first index whose slot is free (-1). -/
def scanFrom (m : Nat → Int) : Nat → Nat → Option Nat
  | _, 0 => Option.none
  | i, fuel + 1 => if m i = -1 then Option.some i else scanFrom m (i + 1) fuel

/-- The while loop of add_fd_mapping_from: first free slot at index ≥ i and
below MAX_FDS, if any. -/
def findFreeSlot (m : Nat → Int) (i : Nat) : Option Nat :=
  scanFrom m i (MAX_FDS - i)

/-- add_fd_mapping_from: linear scan from max(min_fd, next_client_fd) for the
first free slot; on success assign it and move the cursor to the assigned slot
plus one when the assigned slot is at or beyond the cursor; -1 when no slot
below MAX_FDS is free. -/
def add_fd_mapping_from (s : FdState) (server_fd min_fd : Int) : Int × FdState :=
  let start : Int := max min_fd (s.nextClientFd : Int)
  match findFreeSlot s.mapping start.toNat with
  | Option.some c =>
      ((c : Int),
        { mapping := fun i => if i = c then server_fd else s.mapping i,
          nextClientFd := if s.nextClientFd ≤ c then c + 1 else s.nextClientFd })
  | Option.none => (-1, s)

/-- remove_fd_mapping: bounds-check, then write -1 into the slot. -/
def remove_fd_mapping (s : FdState) (client_fd : Int) : FdState :=
  if 0 ≤ client_fd ∧ client_fd < (MAX_FDS : Int) then
    { s with mapping := fun i => if i = client_fd.toNat then -1 else s.mapping i }
  else s

/-- translate_fd: bounds-check, then return the slot value (may be -1). -/
def translate_fd (s : FdState) (client_fd : Int) : Int :=
  if client_fd < 0 ∨ (MAX_FDS : Int) ≤ client_fd then -1
  else s.mapping client_fd.toNat

/-- syscall_open_1_svc: kernel open; on success map the new server descriptor,
converting a full table into result -1 / ENFILE and closing the orphaned
server descriptor; on kernel failure return -1 with the captured errno. -/
def syscall_open_1_svc (s : FdState) (path : String) (flags mode : Int)
    (k : SyscallOutcome) : OpenResponse × FdState × List KernelCall :=
  if 0 ≤ k.ret then
    let r := add_fd_mapping s k.ret
    if r.1 < 0 then
      ({ fd := -1, result := -1, err := ENFILE }, r.2,
        [.openK path flags mode, .closeK k.ret])
    else
      ({ fd := r.1, result := r.1, err := 0 }, r.2, [.openK path flags mode])
  else
    ({ fd := -1, result := -1, err := k.errnoAfter }, s, [.openK path flags mode])

/-- syscall_openat_1_svc: same as open, with dirfd passed through to the
kernel untranslated. -/
def syscall_openat_1_svc (s : FdState) (dirfd : Int) (path : String)
    (flags mode : Int) (k : SyscallOutcome) :
    OpenResponse × FdState × List KernelCall :=
  if 0 ≤ k.ret then
    let r := add_fd_mapping s k.ret
    if r.1 < 0 then
      ({ fd := -1, result := -1, err := ENFILE }, r.2,
        [.openatK dirfd path flags mode, .closeK k.ret])
    else
      ({ fd := r.1, result := r.1, err := 0 }, r.2,
        [.openatK dirfd path flags mode])
  else
    ({ fd := -1, result := -1, err := k.errnoAfter }, s,
      [.openatK dirfd path flags mode])

/-- syscall_close_1_svc: translate; unmapped gives -1 / EBADF without a kernel
call; otherwise kernel close, err := errno, and the slot is removed exactly
when the close returned 0. -/
def syscall_close_1_svc (s : FdState) (fd : Int) (k : SyscallOutcome) :
    PlainResponse × FdState × List KernelCall :=
  let server_fd := translate_fd s fd
  if server_fd < 0 then
    ({ result := -1, err := EBADF }, s, [])
  else
    ({ result := k.ret, err := k.errnoAfter },
      (if k.ret = 0 then remove_fd_mapping s fd else s),
      [.closeK server_fd])

/-- syscall_read_1_svc: translate; unmapped gives -1 / EBADF without a kernel
call; otherwise cap the count at MAX_BUFFER_SIZE (maxBuf), kernel read, set
err := errno unconditionally, and deliver the bytes read as the payload. -/
def syscall_read_1_svc (s : FdState) (fd : Int) (count : Nat) (maxBuf : Nat)
    (k : ReadOutcome) : ReadResponse × List KernelCall :=
  let server_fd := translate_fd s fd
  if server_fd < 0 then
    ({ result := -1, err := EBADF, data := [] }, [])
  else
    let c := min count maxBuf
    match k with
    | .ok bytes e =>
        ({ result := (bytes.length : Int), err := e, data := bytes },
          [.readK server_fd c])
    | .fail e =>
        ({ result := -1, err := e, data := [] }, [.readK server_fd c])

/-- syscall_pread_1_svc: as read, positional. -/
def syscall_pread_1_svc (s : FdState) (fd : Int) (count : Nat) (offset : Int)
    (maxBuf : Nat) (k : ReadOutcome) : ReadResponse × List KernelCall :=
  let server_fd := translate_fd s fd
  if server_fd < 0 then
    ({ result := -1, err := EBADF, data := [] }, [])
  else
    let c := min count maxBuf
    match k with
    | .ok bytes e =>
        ({ result := (bytes.length : Int), err := e, data := bytes },
          [.preadK server_fd c offset])
    | .fail e =>
        ({ result := -1, err := e, data := [] }, [.preadK server_fd c offset])

/-- syscall_write_1_svc: translate; unmapped gives -1 / EBADF without a kernel
call; otherwise kernel write, result := its return, err := errno. -/
def syscall_write_1_svc (s : FdState) (fd : Int) (data : List Int)
    (k : SyscallOutcome) : PlainResponse × List KernelCall :=
  let server_fd := translate_fd s fd
  if server_fd < 0 then
    ({ result := -1, err := EBADF }, [])
  else
    ({ result := k.ret, err := k.errnoAfter }, [.writeK server_fd data])

/-- syscall_pwrite_1_svc: as write, positional. -/
def syscall_pwrite_1_svc (s : FdState) (fd : Int) (data : List Int)
    (offset : Int) (k : SyscallOutcome) : PlainResponse × List KernelCall :=
  let server_fd := translate_fd s fd
  if server_fd < 0 then
    ({ result := -1, err := EBADF }, [])
  else
    ({ result := k.ret, err := k.errnoAfter }, [.pwriteK server_fd data offset])

/-- syscall_fdatasync_1_svc: translate; unmapped gives -1 / EBADF without a
kernel call; otherwise kernel fdatasync, result := its return, err := errno. -/
def syscall_fdatasync_1_svc (s : FdState) (fd : Int) (k : SyscallOutcome) :
    PlainResponse × List KernelCall :=
  let server_fd := translate_fd s fd
  if server_fd < 0 then
    ({ result := -1, err := EBADF }, [])
  else
    ({ result := k.ret, err := k.errnoAfter }, [.fdatasyncK server_fd])

/-- syscall_stat_1_svc: kernel stat; on success result 0 / err 0 with the stat
fields; on failure result -1 with every field zeroed and, as written in the
source, err set to 0 (the captured errno saved_errno is discarded). -/
def syscall_stat_1_svc (path : String) (k : SyscallOutcome) (st : StatFields) :
    StatResponse × List KernelCall :=
  if k.ret = 0 then
    ({ result := 0, err := 0, fields := st }, [.statK path])
  else
    ({ result := -1, err := 0, fields := statFieldsZero }, [.statK path])

/-- syscall_newfstatat_1_svc: services the request by a path-only kernel stat
(dirfd and flags are received but not applied); the response shape is exactly
that of syscall_stat_1_svc, including err = 0 on the failure branch. -/
def syscall_newfstatat_1_svc (dirfd : Int) (path : String) (flags : Int)
    (k : SyscallOutcome) (st : StatFields) : StatResponse × List KernelCall :=
  if k.ret = 0 then
    ({ result := 0, err := 0, fields := st }, [.statK path])
  else
    ({ result := -1, err := 0, fields := statFieldsZero }, [.statK path])

/-- syscall_fstat_1_svc: translate, then kernel fstat on the translation
result.  The source performs the kernel call without checking whether the
translation failed, so an unmapped client descriptor leads to fstat(-1); the
failure branch sets err to 0 like the other stat-family handlers. -/
def syscall_fstat_1_svc (s : FdState) (fd : Int) (k : SyscallOutcome)
    (st : StatFields) : StatResponse × List KernelCall :=
  let server_fd := translate_fd s fd
  if k.ret = 0 then
    ({ result := 0, err := 0, fields := st }, [.fstatK server_fd])
  else
    ({ result := -1, err := 0, fields := statFieldsZero }, [.fstatK server_fd])

/-- syscall_fcntl_1_svc: translate (unmapped gives -1 / EBADF with no kernel
call); kernel fcntl with the decoded argument; on success of F_DUPFD or
F_DUPFD_CLOEXEC map the duplicated server descriptor from the requested
minimum, converting a full table into -1 / ENFILE and closing the duplicate;
on success of F_GETLK with a FLOCK argument return the kernel-updated flock;
on kernel failure return -1 with the captured errno. -/
def syscall_fcntl_1_svc (s : FdState) (fd cmd : Int) (arg : FcntlArg)
    (k : SyscallOutcome) (kflock : FlockData) :
    FcntlResponse × FdState × List KernelCall :=
  let server_fd := translate_fd s fd
  if server_fd < 0 then
    ({ result := -1, err := EBADF, arg_out := .none }, s, [])
  else
    let int_arg : Int := match arg with | .int n => n | _ => 0
    let calls := [KernelCall.fcntlK server_fd cmd arg]
    if 0 ≤ k.ret then
      if cmd = F_DUPFD ∨ cmd = F_DUPFD_CLOEXEC then
        let r := add_fd_mapping_from s k.ret int_arg
        if r.1 < 0 then
          ({ result := -1, err := ENFILE, arg_out := .none }, r.2,
            calls ++ [.closeK k.ret])
        else
          ({ result := r.1, err := 0, arg_out := .none }, r.2, calls)
      else if cmd = F_GETLK ∧ arg.isFlock = true then
        ({ result := k.ret, err := 0, arg_out := .flock kflock }, s, calls)
      else
        ({ result := k.ret, err := 0, arg_out := .none }, s, calls)
    else
      ({ result := -1, err := k.errnoAfter, arg_out := .none }, s, calls)

/-! Client side: the interposed symbols. -/

/-- is_rpc_in_progress from rpc_client.c: the per-thread RPC flag or the
initialization guard. -/
def is_rpc_in_progress (rpc_in_progress in_rpc_init : Bool) : Bool :=
  rpc_in_progress || in_rpc_init

/-- Guard test of the interposed open: its own guard or the RPC flag. -/
def open_bypass (g r : Bool) : Bool := g || r

/-- Guard test of the interposed openat. -/
def openat_bypass (g r : Bool) : Bool := g || r

/-- Guard test of the interposed close. -/
def close_bypass (g r : Bool) : Bool := g || r

/-- Guard test of the interposed read (intercept_read.h): only the symbol's
own guard in_read_intercept is consulted; is_rpc_in_progress() is not. -/
def read_bypass (g r : Bool) : Bool := g

/-- Guard test of the interposed write. -/
def write_bypass (g r : Bool) : Bool := g || r

/-- Guard test of the interposed pread. -/
def pread_bypass (g r : Bool) : Bool := g || r

/-- Guard test of the interposed pwrite. -/
def pwrite_bypass (g r : Bool) : Bool := g || r

/-- Guard test of the interposed stat. -/
def stat_bypass (g r : Bool) : Bool := g || r

/-- Guard test of the interposed fstat. -/
def fstat_bypass (g r : Bool) : Bool := g || r

/-- Guard test of the interposed newfstatat. -/
def newfstatat_bypass (g r : Bool) : Bool := g || r

/-- Guard test of the interposed fcntl. -/
def fcntl_bypass (g r : Bool) : Bool := g || r

/-- Guard test of the interposed fdatasync. -/
def fdatasync_bypass (g r : Bool) : Bool := g || r

/-- One argument of a raw kernel syscall made through syscall(2): a pathname,
the caller's stat/data buffer, or a plain integer. -/
inductive SyscallArg where
  | pathA (p : String)
  | bufA
  | numA (n : Int)
deriving DecidableEq

/-- A raw kernel syscall: the syscall's name and its argument list in
position order. -/
structure RawCall where
  name : String
  args : List SyscallArg
deriving DecidableEq

/-- The raw call the interposed newfstatat makes on its direct-kernel paths:
syscall(SYS_newfstatat, pathname, statbuf) — two arguments only, the pathname
sitting in the dirfd position and the stat buffer in the pathname position. -/
def newfstatat_direct_raw (pathname : String) : RawCall :=
  ⟨"newfstatat", [.pathA pathname, .bufA]⟩

/-- The raw call a faithful fallback would make:
newfstatat(dirfd, pathname, statbuf, flags). -/
def newfstatat_full_raw (dirfd : Int) (pathname : String) (flags : Int) :
    RawCall :=
  ⟨"newfstatat", [.numA dirfd, .pathA pathname, .bufA, .numA flags]⟩

/-- An observable step taken by an interposed function: the one-way socket
message of intercept_read.h (connect_to_sock_and_send_msg), a diagnostic
write, a raw kernel syscall, or a full RPC exchange with the named service. -/
inductive ShimAction where
  | sockSend
  | logWrite
  | raw (c : RawCall)
  | rpcExchange (svc : String)
deriving DecidableEq

/-- Whether a shim action is an RPC exchange. -/
def ShimAction.isRpcExchange : ShimAction → Bool
  | .rpcExchange _ => true
  | _ => false

/-- Effect of a direct kernel read on the user buffer: the kernel writes the
bytes it delivered over the front of the buffer and the rest is untouched;
the return value is the byte count, or -1 on failure. -/
def kernelReadInto (buf : List Int) (k : ReadOutcome) : Int × List Int :=
  match k with
  | .ok bytes _ => ((bytes.length : Int), bytes ++ buf.drop bytes.length)
  | .fail _ => (-1, buf)

/-- The interposed read from intercept_read.h.  When its own guard is set it
returns the raw kernel read at once.  Otherwise it builds a log message, sends
it over a fresh one-way socket (connect_to_sock_and_send_msg), writes the
message to stderr, and then performs the raw kernel read anyway: it never
performs an RPC exchange and never consults a server response, so the user
buffer is filled by the local kernel in both cases.  The result is (return
value, buffer after, actions taken). -/
def read_intercept (g r : Bool) (buf : List Int) (fd : Int) (count : Nat)
    (k : ReadOutcome) : Int × List Int × List ShimAction :=
  let rawc : RawCall := ⟨"read", [.numA fd, .bufA, .numA (count : Int)]⟩
  if read_bypass g r then
    let res := kernelReadInto buf k
    (res.1, res.2, [.raw rawc])
  else
    let res := kernelReadInto buf k
    (res.1, res.2, [.sockSend, .logWrite, .raw rawc])

/-- The interposed pread from intercept_pread.h.  Bypass or missing RPC handle
fall through to the direct kernel path; with a reply, result and errno come
from the response and, when result > 0 and the payload is non-empty,
min(payload length, count) payload bytes overwrite the front of the user
buffer; a null reply gives -1 / EIO.  The result is
(return value, errno after, buffer after). -/
def pread_intercept (g r haveClient : Bool) (reply : Option ReadResponse)
    (buf : List Int) (fd : Int) (count : Nat) (offset : Int)
    (k : ReadOutcome) : Int × Int × List Int :=
  if pread_bypass g r then
    let res := kernelReadInto buf k
    (res.1, k.errnoVal, res.2)
  else if haveClient then
    match reply with
    | Option.some res =>
        let buf' :=
          if 0 < res.result ∧ 0 < res.data.length then
            let n := min res.data.length count
            res.data.take n ++ buf.drop n
          else buf
        (res.result, res.err, buf')
    | Option.none => (-1, EIO, buf)
  else
    let res := kernelReadInto buf k
    (res.1, k.errnoVal, res.2)

/-- The interposed stat from intercept_stat.h, reduced to the result and the
errno it leaves for the caller: bypass and no-handle paths return the direct
kernel outcome; with a reply, result := res.result and errno := res.err; a
null reply gives -1 / EIO.  (The stat-buffer copy-out is not modelled; no
claim refers to it.) -/
def stat_intercept (g r haveClient : Bool) (reply : Option StatResponse)
    (kDirect : SyscallOutcome) : Int × Int :=
  if stat_bypass g r then (kDirect.ret, kDirect.errnoAfter)
  else if haveClient then
    match reply with
    | Option.some res => (res.result, res.err)
    | Option.none => (-1, EIO)
  else (kDirect.ret, kDirect.errnoAfter)

/-- The interposed newfstatat from intercept_newfstatat.h, reduced to its
result and the actions it takes.  Both the bypass path and the no-handle
fallback issue the two-argument raw call newfstatat_direct_raw pathname;
the RPC path performs the exchange. -/
def newfstatat_intercept (g r haveClient : Bool) (dirfd : Int)
    (pathname : String) (flags : Int) (reply : Option StatResponse)
    (kDirect : SyscallOutcome) : Int × List ShimAction :=
  if newfstatat_bypass g r then
    (kDirect.ret, [.raw (newfstatat_direct_raw pathname)])
  else if haveClient then
    match reply with
    | Option.some res =>
        (res.result, [.logWrite, .rpcExchange ("newfstatat"), .logWrite])
    | Option.none =>
        (-1, [.logWrite, .rpcExchange ("newfstatat")])
  else
    (kDirect.ret, [.logWrite, .logWrite, .raw (newfstatat_direct_raw pathname)])

/-! Helper lemmas about the linear scan of add_fd_mapping_from. -/

/-- If the scan returns an index, it lies in the scanned range, its slot is
free, and every earlier index in the range is occupied. -/
theorem scanFrom_some (m : Nat → Int) :
    ∀ (fuel i c : Nat), scanFrom m i fuel = Option.some c →
      i ≤ c ∧ c < i + fuel ∧ m c = -1 ∧ ∀ j, i ≤ j → j < c → m j ≠ -1 := by
  intro fuel
  induction fuel with
  | zero => intro i c h; simp [scanFrom] at h
  | succ n ih =>
      intro i c h
      simp only [scanFrom] at h
      by_cases hm : m i = -1
      · rw [if_pos hm] at h
        injection h with h
        subst h
        exact ⟨Nat.le_refl i, by omega, hm, fun j h1 h2 => by omega⟩
      · rw [if_neg hm] at h
        obtain ⟨h1, h2, h3, h4⟩ := ih (i + 1) c h
        refine ⟨by omega, by omega, h3, ?_⟩
        intro j hj1 hj2
        rcases Nat.eq_or_lt_of_le hj1 with rfl | hlt
        · exact hm
        · exact h4 j (by omega) hj2

/-- If the scan fails, every slot in the scanned range is occupied. -/
theorem scanFrom_none (m : Nat → Int) :
    ∀ (fuel i : Nat), scanFrom m i fuel = Option.none →
      ∀ j, i ≤ j → j < i + fuel → m j ≠ -1 := by
  intro fuel
  induction fuel with
  | zero => intro i _ j h1 h2; omega
  | succ n ih =>
      intro i h j h1 h2
      simp only [scanFrom] at h
      by_cases hm : m i = -1
      · rw [if_pos hm] at h; exact Option.noConfusion h
      · rw [if_neg hm] at h
        rcases Nat.eq_or_lt_of_le h1 with rfl | hlt
        · exact hm
        · exact ih (i + 1) h j (by omega) (by omega)

/-- If every slot in the range is occupied, the scan fails. -/
theorem scanFrom_eq_none (m : Nat → Int) :
    ∀ (fuel i : Nat), (∀ j, i ≤ j → j < i + fuel → m j ≠ -1) →
      scanFrom m i fuel = Option.none := by
  intro fuel
  induction fuel with
  | zero => intro i _; rfl
  | succ n ih =>
      intro i h
      simp only [scanFrom]
      rw [if_neg (h i (Nat.le_refl i) (by omega))]
      exact ih (i + 1) (fun j h1 h2 => h j (by omega) (by omega))

/-! Claim theorems. -/

/-- C1: the server's stat handler discards the errno captured after a failed
kernel stat.  On the failing input, a stat of /tmp/nonexistent_abcdef where the
kernel stat returns -1 with errno = ENOENT, the server's response carries
result -1 but err 0, and the interposed stat copies that err into the
caller's errno, so the caller sees errno 0 instead of ENOENT. -/
theorem stat_error_discards_errno :
    (syscall_stat_1_svc ("/tmp/nonexistent_abcdef") ⟨-1, ENOENT⟩
        statFieldsZero).1 =
      { result := -1, err := 0, fields := statFieldsZero } ∧
    stat_intercept false false true
        (Option.some (syscall_stat_1_svc ("/tmp/nonexistent_abcdef")
          ⟨-1, ENOENT⟩ statFieldsZero).1) ⟨0, 0⟩ = (-1, 0) ∧
    (0 : Int) ≠ ENOENT := by
  refine ⟨by decide, by decide, by decide⟩

/-- C2: on an unmapped client descriptor (999 against the freshly initialized
table) the handlers close, read, pread, write, pwrite, fcntl and fdatasync
return result -1 with err EBADF and issue no kernel call, but the fstat
handler issues a kernel fstat on the failed translation -1 and returns err 0,
not EBADF. -/
theorem fstat_unmapped_fd_reaches_kernel :
    (syscall_close_1_svc initState 999 ⟨0, 0⟩).1 = { result := -1, err := EBADF } ∧
    (syscall_close_1_svc initState 999 ⟨0, 0⟩).2.2 = [] ∧
    syscall_read_1_svc initState 999 100 1024 (.ok [] 0) =
      ({ result := -1, err := EBADF, data := [] }, []) ∧
    syscall_pread_1_svc initState 999 100 0 1024 (.ok [] 0) =
      ({ result := -1, err := EBADF, data := [] }, []) ∧
    syscall_write_1_svc initState 999 [1, 2] ⟨0, 0⟩ =
      ({ result := -1, err := EBADF }, []) ∧
    syscall_pwrite_1_svc initState 999 [1, 2] 0 ⟨0, 0⟩ =
      ({ result := -1, err := EBADF }, []) ∧
    (syscall_fcntl_1_svc initState 999 F_GETFD .none ⟨0, 0⟩
        ⟨0, 0, 0, 0, 0⟩).1 = { result := -1, err := EBADF, arg_out := .none } ∧
    (syscall_fcntl_1_svc initState 999 F_GETFD .none ⟨0, 0⟩
        ⟨0, 0, 0, 0, 0⟩).2.2 = [] ∧
    syscall_fdatasync_1_svc initState 999 ⟨0, 0⟩ =
      ({ result := -1, err := EBADF }, []) ∧
    syscall_fstat_1_svc initState 999 ⟨-1, EBADF⟩ statFieldsZero =
      ({ result := -1, err := 0, fields := statFieldsZero },
        [.fstatK (-1)]) ∧
    (0 : Int) ≠ EBADF := by
  refine ⟨by decide, by decide, by decide, by decide, by decide, by decide,
    by decide, by decide, by decide, by decide, by decide⟩

/-- C3: the interposed pread does copy the server payload prefix into the user
buffer (payload [65, 66] with result 2 and count 4 turns buffer [7, 7, 7, 7]
into [65, 66, 7, 7] leaving the tail untouched), but the interposed read never
performs an RPC exchange at all: on the same call shape its buffer is filled
by the local kernel read (bytes [9, 8]) and its action trace contains a
one-way socket send and a raw kernel read but no RPC exchange. -/
theorem read_no_rpc_pread_copies :
    pread_intercept false false true
        (Option.some { result := 2, err := 0, data := [65, 66] })
        [7, 7, 7, 7] 3 4 0 (.fail 5) = (2, 0, [65, 66, 7, 7]) ∧
    read_intercept false false [7, 7, 7, 7] 3 4 (.ok [9, 8] 0) =
      (2, [9, 8, 7, 7],
        [.sockSend, .logWrite, .raw ⟨"read", [.numA 3, .bufA, .numA 4]⟩]) ∧
    ((read_intercept false false [7, 7, 7, 7] 3 4 (.ok [9, 8] 0)).2.2.all
      fun a => !a.isRpcExchange) = true := by
  refine ⟨by decide, by decide, by decide⟩

/-- C4: with the per-thread RPC-in-progress flag set and the symbol's own
guard clear, every RPC-performing interposer bypasses to the direct kernel
path, but the interposed read does not: its guard test ignores the flag, so it
runs its full body (socket send, diagnostic write, then the raw kernel read)
instead of the direct bypass — though it still never starts an RPC
exchange. -/
theorem read_guard_ignores_rpc_flag :
    open_bypass false true = true ∧
    openat_bypass false true = true ∧
    close_bypass false true = true ∧
    write_bypass false true = true ∧
    pread_bypass false true = true ∧
    pwrite_bypass false true = true ∧
    stat_bypass false true = true ∧
    fstat_bypass false true = true ∧
    newfstatat_bypass false true = true ∧
    fcntl_bypass false true = true ∧
    fdatasync_bypass false true = true ∧
    read_bypass false true = false ∧
    (read_intercept false true [7, 7, 7, 7] 3 4 (.ok [9, 8] 0)).2.2 =
      [.sockSend, .logWrite, .raw ⟨"read", [.numA 3, .bufA, .numA 4]⟩] ∧
    (read_intercept false true [7, 7, 7, 7] 3 4 (.ok [9, 8] 0)).2.2 ≠
      [.raw ⟨"read", [.numA 3, .bufA, .numA 4]⟩] ∧
    ((read_intercept false true [7, 7, 7, 7] 3 4 (.ok [9, 8] 0)).2.2.all
      fun a => !a.isRpcExchange) = true := by
  refine ⟨by decide, by decide, by decide, by decide, by decide, by decide,
    by decide, by decide, by decide, by decide, by decide, by decide,
    by decide, by decide, by decide⟩

/-- C5 counterexample: a close on a mapped descriptor whose kernel close
succeeds while errno still holds a stale value 5 produces a response with
non-negative result 0 and err 5, which is not zero: the close handler copies
errno into err unconditionally. -/
theorem close_success_stale_err :
    0 ≤ (syscall_close_1_svc ⟨fun i => if i = 3 then 7 else -1, 4⟩ 3
        ⟨0, 5⟩).1.result ∧
    (syscall_close_1_svc ⟨fun i => if i = 3 then 7 else -1, 4⟩ 3
        ⟨0, 5⟩).1.err ≠ 0 := by
  refine ⟨by decide, by decide⟩

/-- Scratch state for the reuse scenario: one open (client fd 3). -/
def c7_state1 : FdState :=
  (syscall_open_1_svc initState ("/a") 0 0 ⟨10, 0⟩).2.1

/-- Scratch state: a second open (client fd 4). -/
def c7_state2 : FdState :=
  (syscall_open_1_svc c7_state1 ("/b") 0 0 ⟨11, 0⟩).2.1

/-- Scratch state: client fd 3 closed successfully, freeing slot 3. -/
def c7_state3 : FdState :=
  (syscall_close_1_svc c7_state2 3 ⟨0, 0⟩).2.1

/-- C7 counterexample: after open, open, close(3), slot 3 is free and is the
lowest free client descriptor at or above 3, yet the next successful open
returns 5, not 3: freed slots are not reused by open. -/
theorem open_does_not_reuse_freed_slot :
    c7_state3.mapping 3 = -1 ∧
    c7_state3.nextClientFd = 5 ∧
    (syscall_open_1_svc c7_state3 ("/c") 0 0 ⟨12, 0⟩).1.result = 5 ∧
    (syscall_open_1_svc c7_state3 ("/c") 0 0 ⟨12, 0⟩).1.result ≠ 3 := by
  refine ⟨by decide, by decide, by decide, by decide⟩

/-- C9: for a close request on a mapped client descriptor, the response is
(kernel return, captured errno); the slot is freed exactly when the kernel
close returned 0, no other slot is ever touched, and on kernel failure the
whole table is left unchanged. -/
theorem close_frees_iff_success (s : FdState) (fd : Int) (k : SyscallOutcome)
    (hmapped : 0 ≤ translate_fd s fd) :
    (syscall_close_1_svc s fd k).1 = { result := k.ret, err := k.errnoAfter } ∧
    (k.ret = 0 →
      (syscall_close_1_svc s fd k).2.1.mapping fd.toNat = -1 ∧
      ∀ j, j ≠ fd.toNat →
        (syscall_close_1_svc s fd k).2.1.mapping j = s.mapping j) ∧
    (k.ret ≠ 0 → (syscall_close_1_svc s fd k).2.1 = s) := by
  have hnotlt : ¬ translate_fd s fd < 0 := not_lt.mpr hmapped
  have hb : 0 ≤ fd ∧ fd < (MAX_FDS : Int) := by
    by_contra hcon
    rw [translate_fd, if_pos (by omega)] at hmapped
    omega
  refine ⟨?_, ?_, ?_⟩
  · simp only [syscall_close_1_svc, if_neg hnotlt]
  · intro h0
    simp only [syscall_close_1_svc, if_neg hnotlt, if_pos h0,
      remove_fd_mapping, if_pos hb]
    exact ⟨by simp, fun j hj => by simp [hj]⟩
  · intro h0
    simp only [syscall_close_1_svc, if_neg hnotlt, if_neg h0]

/-- Witness for C9: closing the mapped client descriptor 3 (server
descriptor 7) with a successful kernel close frees slot 3. -/
theorem close_frees_iff_success_witness :
    0 ≤ translate_fd ⟨fun i => if i = 3 then 7 else -1, 4⟩ 3 ∧
    (syscall_close_1_svc ⟨fun i => if i = 3 then 7 else -1, 4⟩ 3
      ⟨0, 0⟩).2.1.mapping 3 = -1 := by
  refine ⟨by decide, ?_⟩
  exact ((close_frees_iff_success ⟨fun i => if i = 3 then 7 else -1, 4⟩ 3
    ⟨0, 0⟩ (by decide)).2.1 rfl).1

/-- C8: when the kernel open succeeds but the table is full (cursor at or
beyond MAX_FDS) both open and openat answer -1 / ENFILE, leave the table
unchanged, and close the orphaned server descriptor; when the kernel open
fails they answer -1 with the captured errno, leave the table unchanged, and
issue no further kernel call. -/
theorem open_failure_paths_spec (s : FdState) (dirfd : Int) (path : String)
    (flags mode : Int) (k : SyscallOutcome) :
    (0 ≤ k.ret → MAX_FDS ≤ s.nextClientFd →
      syscall_open_1_svc s path flags mode k =
        ({ fd := -1, result := -1, err := ENFILE }, s,
          [.openK path flags mode, .closeK k.ret]) ∧
      syscall_openat_1_svc s dirfd path flags mode k =
        ({ fd := -1, result := -1, err := ENFILE }, s,
          [.openatK dirfd path flags mode, .closeK k.ret])) ∧
    (k.ret < 0 →
      syscall_open_1_svc s path flags mode k =
        ({ fd := -1, result := -1, err := k.errnoAfter }, s,
          [.openK path flags mode]) ∧
      syscall_openat_1_svc s dirfd path flags mode k =
        ({ fd := -1, result := -1, err := k.errnoAfter }, s,
          [.openatK dirfd path flags mode])) := by
  constructor
  · intro hk hfull
    have h1 : s.nextClientFd ≥ MAX_FDS := hfull
    constructor
    · simp only [syscall_open_1_svc, if_pos hk, add_fd_mapping, if_pos h1]
      norm_num
    · simp only [syscall_openat_1_svc, if_pos hk, add_fd_mapping, if_pos h1]
      norm_num
  · intro hk
    have hnk : ¬ 0 ≤ k.ret := not_le.mpr hk
    exact ⟨by simp only [syscall_open_1_svc, if_neg hnk],
      by simp only [syscall_openat_1_svc, if_neg hnk]⟩

/-- Witness for C8: kernel open succeeded with server descriptor 7 while the
cursor already sits at MAX_FDS; the open handler reports ENFILE, keeps the
table as it was, and closes server descriptor 7. -/
theorem open_failure_paths_spec_witness :
    (0 : Int) ≤ 7 ∧
    MAX_FDS ≤ (FdState.mk (fun _ => -1) 1024).nextClientFd ∧
    syscall_open_1_svc ⟨fun _ => -1, 1024⟩ ("/w") 1 2 ⟨7, 0⟩ =
      ({ fd := -1, result := -1, err := ENFILE }, ⟨fun _ => -1, 1024⟩,
        [.openK ("/w") 1 2, .closeK 7]) := by
  refine ⟨by decide, by decide, ?_⟩
  exact ((open_failure_paths_spec ⟨fun _ => -1, 1024⟩ 0 ("/w") 1 2
    ⟨7, 0⟩).1 (by decide) (by decide)).1

/-- C10: on every direct-kernel path of the interposed newfstatat (bypass
taken, or no RPC handle) the only raw syscall issued is the two-argument
newfstatat with the pathname in the dirfd position and the stat buffer in the
pathname position; the faithful four-argument call is never made. -/
theorem newfstatat_fallback_two_args (g r haveClient : Bool) (dirfd : Int)
    (pathname : String) (flags : Int) (reply : Option StatResponse)
    (k : SyscallOutcome)
    (hdirect : newfstatat_bypass g r = true ∨ haveClient = false) :
    ShimAction.raw (newfstatat_direct_raw pathname) ∈
      (newfstatat_intercept g r haveClient dirfd pathname flags reply k).2 ∧
    (∀ c : RawCall,
      ShimAction.raw c ∈
        (newfstatat_intercept g r haveClient dirfd pathname flags reply k).2 →
      c = newfstatat_direct_raw pathname) ∧
    newfstatat_direct_raw pathname ≠ newfstatat_full_raw dirfd pathname flags := by
  refine ⟨?_, ?_, ?_⟩
  · by_cases hb : newfstatat_bypass g r = true
    · simp [newfstatat_intercept, hb]
    · rcases hdirect with hby | hc
      · exact absurd hby hb
      · subst hc
        simp [newfstatat_intercept, hb]
  · intro c hc
    by_cases hb : newfstatat_bypass g r = true
    · simp [newfstatat_intercept, hb] at hc
      simp [hc]
    · rcases hdirect with hby | hcf
      · exact absurd hby hb
      · subst hcf
        simp [newfstatat_intercept, hb] at hc
        simp [hc]
  · simp [newfstatat_direct_raw, newfstatat_full_raw]

/-- Witness for C10: with the guard set, the interposed newfstatat issues the
two-argument raw call for pathname "/x". -/
theorem newfstatat_fallback_two_args_witness :
    (newfstatat_bypass true false = true ∨ (true : Bool) = false) ∧
    ShimAction.raw (newfstatat_direct_raw ("/x")) ∈
      (newfstatat_intercept true false true 5 ("/x") 256 Option.none
        ⟨0, 0⟩).2 := by
  refine ⟨Or.inl (by decide), ?_⟩
  exact (newfstatat_fallback_two_args true false true 5 ("/x") 256
    Option.none ⟨0, 0⟩ (Or.inl (by decide))).1

/-- C7 amended: a successful open with room in the table returns exactly the
cursor next_client_fd, maps it to the new server descriptor, advances the
cursor by one, touches no other slot, and — whenever every mapped slot lies
below the cursor, which holds in every reachable state — the assigned slot was
previously free, so client descriptors are unique while mapped; open never
returns a freed slot below the cursor. -/
theorem open_assigns_cursor (s : FdState) (path : String) (flags mode : Int)
    (k : SyscallOutcome) (hk : 0 ≤ k.ret) (hroom : s.nextClientFd < MAX_FDS) :
    (syscall_open_1_svc s path flags mode k).1.result =
      (s.nextClientFd : Int) ∧
    (syscall_open_1_svc s path flags mode k).2.1.nextClientFd =
      s.nextClientFd + 1 ∧
    (syscall_open_1_svc s path flags mode k).2.1.mapping s.nextClientFd =
      k.ret ∧
    (∀ j, j ≠ s.nextClientFd →
      (syscall_open_1_svc s path flags mode k).2.1.mapping j = s.mapping j) ∧
    ((∀ i, s.mapping i ≠ -1 → i < s.nextClientFd) →
      s.mapping s.nextClientFd = -1) := by
  have hnf : ¬ s.nextClientFd ≥ MAX_FDS := not_le.mpr hroom
  have hpos : ¬ ((s.nextClientFd : Int) < 0) := by omega
  simp only [syscall_open_1_svc, if_pos hk, add_fd_mapping, if_neg hnf,
    if_neg hpos]
  refine ⟨by trivial, by trivial, by simp, fun j hj => by simp [hj], ?_⟩
  intro hinv
  by_contra hne
  exact absurd (hinv _ hne) (lt_irrefl _)

/-- Witness for C7's amended statement: from the initial state, a successful
kernel open (server descriptor 10) is answered with client descriptor 3, the
cursor value. -/
theorem open_assigns_cursor_witness :
    (0 : Int) ≤ 10 ∧ initState.nextClientFd < MAX_FDS ∧
    (syscall_open_1_svc initState ("/w") 0 0 ⟨10, 0⟩).1.result = 3 := by
  refine ⟨by decide, by decide, ?_⟩
  exact (open_assigns_cursor initState ("/w") 0 0 ⟨10, 0⟩ (by decide)
    (by decide)).1

/-- If every slot from the scan start up to MAX_FDS is occupied,
add_fd_mapping_from fails with -1 and leaves the state unchanged. -/
theorem add_fd_mapping_from_full (s : FdState) (server_fd min_fd : Int)
    (hfull : ∀ j : Nat, (max min_fd (s.nextClientFd : Int)).toNat ≤ j →
      j < MAX_FDS → s.mapping j ≠ -1) :
    add_fd_mapping_from s server_fd min_fd = (-1, s) := by
  have hnone : findFreeSlot s.mapping
      (max min_fd (s.nextClientFd : Int)).toNat = Option.none := by
    rw [findFreeSlot]
    apply scanFrom_eq_none
    intro j h1 h2
    exact hfull j h1 (by omega)
  simp only [add_fd_mapping_from, hnone]

/-- C6: the F_DUPFD / F_DUPFD_CLOEXEC allocation.  The scan starts at
max(min_fd, next_client_fd) — so a min_fd at or below the cursor starts at the
cursor; a non-negative result is the first free slot at or beyond that start,
it is assigned to the duplicated server descriptor with no other slot touched,
and the cursor moves to assigned + 1 (the scan start is never below the
cursor, so the scan always consumes it); if every slot from the start up to
MAX_FDS is taken the allocation fails with -1 leaving the state unchanged, and
the fcntl handler then answers result -1 / err ENFILE and closes the
duplicated server descriptor. -/
theorem dupfd_allocation_spec (s : FdState) (server_fd min_fd : Int) :
    (min_fd ≤ (s.nextClientFd : Int) →
      max min_fd (s.nextClientFd : Int) = (s.nextClientFd : Int)) ∧
    (∀ (c : Int) (s' : FdState),
      add_fd_mapping_from s server_fd min_fd = (c, s') → 0 ≤ c →
      max min_fd (s.nextClientFd : Int) ≤ c ∧ c < (MAX_FDS : Int) ∧
      s.mapping c.toNat = -1 ∧
      (∀ j : Nat, (max min_fd (s.nextClientFd : Int)).toNat ≤ j →
        (j : Int) < c → s.mapping j ≠ -1) ∧
      s'.mapping c.toNat = server_fd ∧
      (∀ j : Nat, j ≠ c.toNat → s'.mapping j = s.mapping j) ∧
      s'.nextClientFd = c.toNat + 1) ∧
    ((∀ j : Nat, (max min_fd (s.nextClientFd : Int)).toNat ≤ j →
        j < MAX_FDS → s.mapping j ≠ -1) →
      add_fd_mapping_from s server_fd min_fd = (-1, s)) ∧
    (∀ (fd cmd : Int) (k : SyscallOutcome) (kfl : FlockData) (n : Int),
      (cmd = F_DUPFD ∨ cmd = F_DUPFD_CLOEXEC) →
      0 ≤ translate_fd s fd → 0 ≤ k.ret →
      (∀ j : Nat, (max n (s.nextClientFd : Int)).toNat ≤ j → j < MAX_FDS →
        s.mapping j ≠ -1) →
      (syscall_fcntl_1_svc s fd cmd (.int n) k kfl).1 =
        { result := -1, err := ENFILE, arg_out := .none } ∧
      KernelCall.closeK k.ret ∈
        (syscall_fcntl_1_svc s fd cmd (.int n) k kfl).2.2) := by
  refine ⟨fun h => max_eq_right h, ?_, add_fd_mapping_from_full s server_fd min_fd, ?_⟩
  · intro c s' heq hc
    simp only [add_fd_mapping_from] at heq
    set start : Int := max min_fd (s.nextClientFd : Int) with hstart
    have h0 : (s.nextClientFd : Int) ≤ start := le_max_right _ _
    have hs0 : 0 ≤ start := le_trans (Int.natCast_nonneg _) h0
    cases hfind : findFreeSlot s.mapping start.toNat with
    | none =>
        simp only [hfind] at heq
        injection heq with h1 h2
        omega
    | some c0 =>
        simp only [hfind] at heq
        injection heq with hc0 hs'
        subst hc0
        subst hs'
        rw [findFreeSlot] at hfind
        obtain ⟨ha, hbnd, hfree, hprev⟩ :=
          scanFrom_some s.mapping (MAX_FDS - start.toNat) start.toNat c0 hfind
        have hcM : c0 < MAX_FDS := by omega
        have htn : ((c0 : Int)).toNat = c0 := by omega
        have hle : s.nextClientFd ≤ c0 := by omega
        refine ⟨by omega, by exact_mod_cast hcM, ?_, ?_, ?_, ?_, ?_⟩
        · rw [htn]; exact hfree
        · intro j hj1 hj2
          exact hprev j hj1 (by omega)
        · simp [htn]
        · intro j hj
          rw [htn] at hj
          simp [hj]
        · simp [htn, hle]
  · intro fd cmd k kfl n hcmd htr hk hfull
    have hr := add_fd_mapping_from_full s k.ret n hfull
    have hnotlt : ¬ translate_fd s fd < 0 := not_lt.mpr htr
    simp only [syscall_fcntl_1_svc, if_neg hnotlt, if_pos hk, if_pos hcmd, hr]
    norm_num

/-- Witness for C6: with every slot occupied (server descriptor 7 everywhere)
a successful kernel F_DUPFD (duplicate server descriptor 42, minimum 5) is
answered with -1 / ENFILE. -/
theorem dupfd_allocation_spec_witness :
    ((F_DUPFD : Int) = F_DUPFD ∨ (F_DUPFD : Int) = F_DUPFD_CLOEXEC) ∧
    0 ≤ translate_fd ⟨fun _ => 7, 4⟩ 3 ∧ (0 : Int) ≤ 42 ∧
    (syscall_fcntl_1_svc ⟨fun _ => 7, 4⟩ 3 F_DUPFD (.int 5) ⟨42, 0⟩
      ⟨0, 0, 0, 0, 0⟩).1 = { result := -1, err := ENFILE, arg_out := .none } := by
  refine ⟨Or.inl rfl, by decide, by decide, ?_⟩
  exact ((dupfd_allocation_spec ⟨fun _ => 7, 4⟩ 0 0).2.2.2 3 F_DUPFD ⟨42, 0⟩
    ⟨0, 0, 0, 0, 0⟩ 5 (Or.inl rfl) (by decide) (by decide)
    (fun j _ _ => by simp)).1

/-- C5 amended: the handlers open, openat, stat, newfstatat, fstat and fcntl
explicitly zero err on every non-negative result, but close, read, pread,
write, pwrite and fdatasync copy the post-call errno into err unconditionally
whenever the descriptor is mapped, so for those six a non-negative result is
accompanied by err 0 only when errno happened to be 0. -/
theorem response_err_discipline :
    (∀ (s : FdState) (path : String) (flags mode : Int) (k : SyscallOutcome),
      0 ≤ (syscall_open_1_svc s path flags mode k).1.result →
      (syscall_open_1_svc s path flags mode k).1.err = 0) ∧
    (∀ (s : FdState) (dirfd : Int) (path : String) (flags mode : Int)
      (k : SyscallOutcome),
      0 ≤ (syscall_openat_1_svc s dirfd path flags mode k).1.result →
      (syscall_openat_1_svc s dirfd path flags mode k).1.err = 0) ∧
    (∀ (path : String) (k : SyscallOutcome) (st : StatFields),
      0 ≤ (syscall_stat_1_svc path k st).1.result →
      (syscall_stat_1_svc path k st).1.err = 0) ∧
    (∀ (dirfd : Int) (path : String) (flags : Int) (k : SyscallOutcome)
      (st : StatFields),
      0 ≤ (syscall_newfstatat_1_svc dirfd path flags k st).1.result →
      (syscall_newfstatat_1_svc dirfd path flags k st).1.err = 0) ∧
    (∀ (s : FdState) (fd : Int) (k : SyscallOutcome) (st : StatFields),
      0 ≤ (syscall_fstat_1_svc s fd k st).1.result →
      (syscall_fstat_1_svc s fd k st).1.err = 0) ∧
    (∀ (s : FdState) (fd cmd : Int) (arg : FcntlArg) (k : SyscallOutcome)
      (kfl : FlockData),
      0 ≤ (syscall_fcntl_1_svc s fd cmd arg k kfl).1.result →
      (syscall_fcntl_1_svc s fd cmd arg k kfl).1.err = 0) ∧
    (∀ (s : FdState) (fd : Int) (k : SyscallOutcome),
      0 ≤ translate_fd s fd →
      (syscall_close_1_svc s fd k).1.err = k.errnoAfter) ∧
    (∀ (s : FdState) (fd : Int) (count maxBuf : Nat) (k : ReadOutcome),
      0 ≤ translate_fd s fd →
      (syscall_read_1_svc s fd count maxBuf k).1.err = k.errnoVal) ∧
    (∀ (s : FdState) (fd : Int) (count : Nat) (offset : Int) (maxBuf : Nat)
      (k : ReadOutcome),
      0 ≤ translate_fd s fd →
      (syscall_pread_1_svc s fd count offset maxBuf k).1.err = k.errnoVal) ∧
    (∀ (s : FdState) (fd : Int) (data : List Int) (k : SyscallOutcome),
      0 ≤ translate_fd s fd →
      (syscall_write_1_svc s fd data k).1.err = k.errnoAfter) ∧
    (∀ (s : FdState) (fd : Int) (data : List Int) (offset : Int)
      (k : SyscallOutcome),
      0 ≤ translate_fd s fd →
      (syscall_pwrite_1_svc s fd data offset k).1.err = k.errnoAfter) ∧
    (∀ (s : FdState) (fd : Int) (k : SyscallOutcome),
      0 ≤ translate_fd s fd →
      (syscall_fdatasync_1_svc s fd k).1.err = k.errnoAfter) := by
  refine ⟨?_, ?_, ?_, ?_, ?_, ?_, ?_, ?_, ?_, ?_, ?_, ?_⟩
  · intro s path flags mode k
    by_cases hk : 0 ≤ k.ret
    · simp only [syscall_open_1_svc, if_pos hk]
      by_cases hr : (add_fd_mapping s k.ret).1 < 0
      · simp only [if_pos hr]; intro h; exact absurd h (by decide)
      · simp only [if_neg hr]; intro _; trivial
    · simp only [syscall_open_1_svc, if_neg hk]; intro h
      exact absurd h (by decide)
  · intro s dirfd path flags mode k
    by_cases hk : 0 ≤ k.ret
    · simp only [syscall_openat_1_svc, if_pos hk]
      by_cases hr : (add_fd_mapping s k.ret).1 < 0
      · simp only [if_pos hr]; intro h; exact absurd h (by decide)
      · simp only [if_neg hr]; intro _; trivial
    · simp only [syscall_openat_1_svc, if_neg hk]; intro h
      exact absurd h (by decide)
  · intro path k st
    by_cases hk : k.ret = 0
    · simp only [syscall_stat_1_svc, if_pos hk]; intro _; trivial
    · simp only [syscall_stat_1_svc, if_neg hk]; intro _; trivial
  · intro dirfd path flags k st
    by_cases hk : k.ret = 0
    · simp only [syscall_newfstatat_1_svc, if_pos hk]; intro _; trivial
    · simp only [syscall_newfstatat_1_svc, if_neg hk]; intro _; trivial
  · intro s fd k st
    by_cases hk : k.ret = 0
    · simp only [syscall_fstat_1_svc, if_pos hk]; intro _; trivial
    · simp only [syscall_fstat_1_svc, if_neg hk]; intro _; trivial
  · intro s fd cmd arg k kfl
    by_cases ht : translate_fd s fd < 0
    · simp only [syscall_fcntl_1_svc, if_pos ht]; intro h
      exact absurd h (by decide)
    · simp only [syscall_fcntl_1_svc, if_neg ht]
      by_cases hk : 0 ≤ k.ret
      · simp only [if_pos hk]
        by_cases hcmd : cmd = F_DUPFD ∨ cmd = F_DUPFD_CLOEXEC
        · simp only [if_pos hcmd]
          by_cases hr :
            (add_fd_mapping_from s k.ret
              (match arg with | .int n => n | _ => 0)).1 < 0
          · simp only [if_pos hr]; intro h; exact absurd h (by decide)
          · simp only [if_neg hr]; intro _; trivial
        · simp only [if_neg hcmd]
          by_cases hlk : cmd = F_GETLK ∧ arg.isFlock = true
          · simp only [if_pos hlk]; intro _; trivial
          · simp only [if_neg hlk]; intro _; trivial
      · simp only [if_neg hk]; intro h; exact absurd h (by decide)
  · intro s fd k ht
    simp only [syscall_close_1_svc, if_neg (not_lt.mpr ht)]
  · intro s fd count maxBuf k ht
    cases k with
    | ok bytes e =>
        simp only [syscall_read_1_svc, if_neg (not_lt.mpr ht),
          ReadOutcome.errnoVal]
    | fail e =>
        simp only [syscall_read_1_svc, if_neg (not_lt.mpr ht),
          ReadOutcome.errnoVal]
  · intro s fd count offset maxBuf k ht
    cases k with
    | ok bytes e =>
        simp only [syscall_pread_1_svc, if_neg (not_lt.mpr ht),
          ReadOutcome.errnoVal]
    | fail e =>
        simp only [syscall_pread_1_svc, if_neg (not_lt.mpr ht),
          ReadOutcome.errnoVal]
  · intro s fd data k ht
    simp only [syscall_write_1_svc, if_neg (not_lt.mpr ht)]
  · intro s fd data offset k ht
    simp only [syscall_pwrite_1_svc, if_neg (not_lt.mpr ht)]
  · intro s fd k ht
    simp only [syscall_fdatasync_1_svc, if_neg (not_lt.mpr ht)]

/-- Witness for C5's amended statement: a successful open from the initial
state has non-negative result 3 and err 0, and a successful close of a mapped
descriptor carries the stale errno 5 as its err. -/
theorem response_err_discipline_witness :
    0 ≤ (syscall_open_1_svc initState ("/v") 0 0 ⟨10, 0⟩).1.result ∧
    (syscall_open_1_svc initState ("/v") 0 0 ⟨10, 0⟩).1.err = 0 ∧
    0 ≤ translate_fd ⟨fun i => if i = 3 then 7 else -1, 4⟩ 3 ∧
    (syscall_close_1_svc ⟨fun i => if i = 3 then 7 else -1, 4⟩ 3
      ⟨0, 5⟩).1.err = 5 := by
  refine ⟨by decide, ?_, by decide, ?_⟩
  · exact response_err_discipline.1 initState ("/v") 0 0 ⟨10, 0⟩ (by decide)
  · exact response_err_discipline.2.2.2.2.2.2.1
      ⟨fun i => if i = 3 then 7 else -1, 4⟩ 3 ⟨0, 5⟩ (by decide)

end P3
